import Mathlib

/-!
Verification of the WS5 smart signup-form controller (src/app.js).

The script is embedded shallowly: the DOM state the script reads and writes
(field values, error slots, aria-invalid markers, the company section's
hidden flag and required attribute, the summary region, local storage) is a
Lean structure, and every event listener becomes a pure state transformer.
Constraint-validation facts that live in the HTML markup (which is not part
of the repository) are modelled from the specification and marked as such.
-/

namespace WS5

/-! ## Field identifiers and pure per-field checks -/

/-- Identifiers of the five validated inputs. -/
inductive FieldId
  | name
  | email
  | password
  | phone
  | company
deriving DecidableEq, Repr

/-- Does the string start with the given character?  (The JavaScript
`startsWith` calls in the source all test a single character.) -/
def strStarts (v : String) (c : Char) : Bool :=
  match v.toList with
  | [] => false
  | a :: _ => a == c

/-- The JavaScript `trim()`: remove leading and trailing whitespace. -/
def jsTrim (v : String) : String :=
  String.mk (((v.toList.dropWhile Char.isWhitespace).reverse.dropWhile
    Char.isWhitespace).reverse)

/-- Modelled from the spec: the browser email-shape check behind
`validity.typeMismatch` on the email input (the markup carrying
`type="email"` is not in the repository).  Modelled as: exactly one `@`
with a nonempty local part and a nonempty domain part, no spaces. -/
def emailShapeOk (v : String) : Bool :=
  let l := v.toList
  let lp := l.takeWhile (fun c => c != '@')
  let dp := (l.dropWhile (fun c => c != '@')).drop 1
  (l.count '@' == 1) && !lp.isEmpty && !dp.isEmpty && !l.contains ' '

/-- Modelled from the spec: the pattern behind the phone input's `pattern`
attribute (markup not in the repository); the spec's example is
"+358 40 123 4567".  Modelled as: an optional leading plus sign, then only
digits and spaces, with at least seven digits in total. -/
def phonePatternOk (v : String) : Bool :=
  let rest := if strStarts v '+' then v.toList.drop 1 else v.toList
  rest.all (fun c => c.isDigit || c == ' ') &&
    decide (7 ≤ (rest.filter Char.isDigit).length)

/-- Pure outcome of validateName: validity flag and the custom message it
sets (empty when valid).  `valueMissing` is modelled as the value being
empty, per the spec's required-name rule (the required attribute lives in
the missing markup). -/
def nameCheck (v : String) : Bool × String :=
  if v = "" then (false, "Name is required.")
  else if (jsTrim v).length < 2 then (false, "Name must be at least 2 characters.")
  else (true, "")

/-- Pure outcome of validateEmail. -/
def emailCheck (v : String) : Bool × String :=
  if v = "" then (false, "Email is required.")
  else if emailShapeOk v = false then (false, "Enter a valid email address.")
  else (true, "")

/-- Pure outcome of validatePassword: required, then `tooShort` against the
minlength of 8, then the combined upper/lower/digit pattern from the source. -/
def passwordCheck (v : String) : Bool × String :=
  if v = "" then (false, "Password is required.")
  else if v.length < 8 then (false, "Password must be at least 8 characters.")
  else if (v.toList.any Char.isUpper && v.toList.any Char.isLower &&
      v.toList.any Char.isDigit) = false then
    (false, "Add upper case, lower case, and a number.")
  else (true, "")

/-- Pure outcome of validatePhone: the phone field is optional, so an empty
value is valid; a nonempty value failing the pattern gets the example text. -/
def phoneCheck (v : String) : Bool × String :=
  if v ≠ "" ∧ phonePatternOk v = false then
    (false, "Phone format example: +358 40 123 4567")
  else (true, "")

/-- Pure outcome of validateCompany when the company section is visible:
`valueMissing` is the required attribute together with an empty value. -/
def companyCheck (req : Bool) (v : String) : Bool × String :=
  if req ∧ v = "" then
    (false, "Company name is required when registering as a company.")
  else (true, "")

/-! ## The DOM-and-storage state -/

/-- The parsed shape of the persisted draft blob: each property may be
absent, matching the `data.x || default` reads of restoreDraft. -/
structure DraftData where
  name : Option String
  email : Option String
  phone : Option String
  password : Option String
  companyToggle : Option Bool
  company : Option String
deriving DecidableEq, Repr

/-- What the single localStorage key can hold: nothing, a parseable draft
object, or an unparseable string. -/
inductive Blob
  | absent
  | wellFormed (d : DraftData)
  | malformed (raw : String)
deriving DecidableEq, Repr

/-- The DOM-and-storage state the script manipulates: the six input values,
the company toggle, the company section's hidden flag and the company
field's required attribute, the five error slots, the five aria-invalid
markers, the summary region, and the stored blob. -/
structure St where
  nameV : String
  emailV : String
  passwordV : String
  phoneV : String
  companyV : String
  hpV : String
  companyToggle : Bool
  companyHidden : Bool
  companyRequired : Bool
  errName : String
  errEmail : String
  errPassword : String
  errPhone : String
  errCompany : String
  ariaName : Bool
  ariaEmail : Bool
  ariaPassword : Bool
  ariaPhone : Bool
  ariaCompany : Bool
  summaryHidden : Bool
  summaryHTML : String
  storage : Blob
deriving DecidableEq, Repr

/-- Modelled from the spec: the initial DOM state of the form (markup not in
the repository): all inputs empty, company checkbox unchecked, company
section hidden, company not required, error slots empty, no invalid
markers, summary hidden.  The store holds whatever blob a previous session
left. -/
def initSt (b : Blob) : St :=
  { nameV := "", emailV := "", passwordV := "", phoneV := "", companyV := "", hpV := ""
    companyToggle := false, companyHidden := true, companyRequired := false
    errName := "", errEmail := "", errPassword := "", errPhone := "", errCompany := ""
    ariaName := false, ariaEmail := false, ariaPassword := false, ariaPhone := false
    ariaCompany := false, summaryHidden := true, summaryHTML := "", storage := b }

/-! ## Validators as state transformers (section 4 of app.js) -/

/-- validateName: write the winning message to the error slot, set the
aria-invalid marker, return the validity flag. -/
def validateName (s : St) : Bool × St :=
  ((nameCheck s.nameV).1,
   { s with errName := (nameCheck s.nameV).2, ariaName := !(nameCheck s.nameV).1 })

/-- validateEmail. -/
def validateEmail (s : St) : Bool × St :=
  ((emailCheck s.emailV).1,
   { s with errEmail := (emailCheck s.emailV).2, ariaEmail := !(emailCheck s.emailV).1 })

/-- validatePassword. -/
def validatePassword (s : St) : Bool × St :=
  ((passwordCheck s.passwordV).1,
   { s with errPassword := (passwordCheck s.passwordV).2
            ariaPassword := !(passwordCheck s.passwordV).1 })

/-- validatePhone. -/
def validatePhone (s : St) : Bool × St :=
  ((phoneCheck s.phoneV).1,
   { s with errPhone := (phoneCheck s.phoneV).2, ariaPhone := !(phoneCheck s.phoneV).1 })

/-- validateCompany: returns true immediately when the company section is
hidden, touching nothing; otherwise behaves like the other validators. -/
def validateCompany (s : St) : Bool × St :=
  if s.companyHidden then (true, s)
  else
    ((companyCheck s.companyRequired s.companyV).1,
     { s with errCompany := (companyCheck s.companyRequired s.companyV).2
              ariaCompany := !(companyCheck s.companyRequired s.companyV).1 })

/-- The list of summary lines buildSummary assembles, as a pure function of
the field values and the company visibility and required flags. -/
def problems (s : St) : List String :=
  (if (nameCheck s.nameV).1 then [] else ["Name: " ++ (nameCheck s.nameV).2]) ++
  (if (emailCheck s.emailV).1 then [] else ["Email: " ++ (emailCheck s.emailV).2]) ++
  (if (passwordCheck s.passwordV).1 then [] else
    ["Password: " ++ (passwordCheck s.passwordV).2]) ++
  (if (phoneCheck s.phoneV).1 then [] else ["Phone: " ++ (phoneCheck s.phoneV).2]) ++
  (if s.companyHidden then []
   else if (companyCheck s.companyRequired s.companyV).1 then []
   else ["Company: " ++ (companyCheck s.companyRequired s.companyV).2])

/-- buildSummary: re-run every validator (the company validator only when
its section is visible), collect a line per failing field, and show the
joined list in the summary region, or hide and clear the region when there
are no failures. -/
def buildSummary (s : St) : St :=
  let r1 := validateName s
  let r2 := validateEmail r1.2
  let r3 := validatePassword r2.2
  let r4 := validatePhone r3.2
  let r5 := if r4.2.companyHidden then (true, r4.2) else validateCompany r4.2
  let probs :=
    (if r1.1 then [] else ["Name: " ++ r1.2.errName]) ++
    (if r2.1 then [] else ["Email: " ++ r2.2.errEmail]) ++
    (if r3.1 then [] else ["Password: " ++ r3.2.errPassword]) ++
    (if r4.1 then [] else ["Phone: " ++ r4.2.errPhone]) ++
    (if r4.2.companyHidden then []
     else if r5.1 then [] else ["Company: " ++ r5.2.errCompany])
  if probs.isEmpty then { r5.2 with summaryHidden := true, summaryHTML := "" }
  else
    { r5.2 with summaryHidden := false
                summaryHTML := "Please fix the following:<br>" ++
                  String.intercalate "<br>" probs }

/-! ## Debounce model (section 3 of app.js and the two usages) -/

/-- The ambient timer table: scheduled (timer id, fire time) pairs, plus the
next fresh id. -/
structure Sched where
  timers : List (Nat × Nat)
  nextId : Nat
deriving DecidableEq, Repr

/-- clearTimeout on a stored handle: removing an id that was never stored
(the undefined initial `timeout`) is a no-op, exactly as in the browser. -/
def clearStored (stored : Option Nat) (ts : List (Nat × Nat)) : List (Nat × Nat) :=
  match stored with
  | none => ts
  | some i => ts.filter (fun p => p.1 ≠ i)

/-- One trigger of a debounced wrapper at time t: clear the stored pending
timer, schedule the action `wait` later, and remember the new handle. -/
def debounceTrigger (wait t : Nat) (st : Option Nat × Sched) : Option Nat × Sched :=
  (some st.2.nextId,
   { timers := clearStored st.1 st.2.timers ++ [(st.2.nextId, t + wait)]
     nextId := st.2.nextId + 1 })

/-- The live-validation input listeners as written in the source: every
input event evaluates `debounce(validateX, 150)()`, creating a fresh
wrapper whose stored handle is still undefined, and triggers it once. -/
def liveInputEvents (times : List Nat) : Sched :=
  times.foldl (fun sch t => (debounceTrigger 150 t (none, sch)).2) { timers := [], nextId := 0 }

/-- One shared debounced wrapper triggered across all the events, which is
the contract the spec describes (and how the autosave usage on line 234 of
the source instantiates debounce). -/
def sharedDebounce (wait : Nat) (times : List Nat) : Option Nat × Sched :=
  times.foldl (fun st t => debounceTrigger wait t st)
    (none, { timers := [], nextId := 0 })

/-! ## Draft persistence (section 7 of app.js) -/

/-- The JavaScript read `data.x || ''` for a possibly-absent string property:
an absent property and the empty string both give the empty string. -/
def jsStr (o : Option String) : String := o.getD ""

/-- The JavaScript read `Boolean(data.companyToggle)` for a possibly-absent
boolean property. -/
def jsBool (o : Option Bool) : Bool := o.getD false

/-- saveDraft: serialize the six current values as one object and overwrite
the single storage key with it. -/
def saveDraft (s : St) : St :=
  { s with storage := Blob.wellFormed ⟨some s.nameV, some s.emailV, some s.phoneV,
      some s.passwordV, some s.companyToggle, some s.companyV⟩ }

/-- The body of restoreDraft up to the try/catch boundary: an absent blob is
a silent no-op, a malformed blob makes JSON.parse throw, and a well-formed
blob is applied field by field with the `|| default` reads, re-deriving the
company-section visibility from the restored toggle. -/
def restoreDraftE (s : St) : Except String St :=
  match s.storage with
  | Blob.absent => Except.ok s
  | Blob.malformed raw => Except.error ("SyntaxError: unexpected token in JSON: " ++ raw)
  | Blob.wellFormed d =>
      Except.ok
        { s with nameV := jsStr d.name, emailV := jsStr d.email
                 phoneV := jsStr d.phone, passwordV := jsStr d.password
                 companyToggle := jsBool d.companyToggle
                 companyHidden := !(jsBool d.companyToggle)
                 companyV := jsStr d.company }

/-- The observable output channels of a handler: blocking alerts shown to
the user, console.error diagnostics, plain console.log lines, outbound
network requests (payloads are defined below; restore issues none), and the
field given focus. -/
structure Effects where
  alerts : List String
  errorLogs : List String
  logs : List String
  sentCount : Nat
  focus : Option FieldId
deriving DecidableEq, Repr

/-- No observable effects. -/
def noEffects : Effects :=
  { alerts := [], errorLogs := [], logs := [], sentCount := 0, focus := none }

/-- restoreDraft with its try/catch: a thrown deserialization error is
caught at this boundary, the state is left as it was, and the failure goes
to console.error only. -/
def restoreDraftRun (s : St) : St × Effects :=
  match restoreDraftE s with
  | Except.ok t => (t, { noEffects with logs := ["Restored Draft"] })
  | Except.error e => (s, { noEffects with errorLogs := ["Restore Error: " ++ e] })

/-- The state after restoreDraft. -/
def restoreDraft (s : St) : St := (restoreDraftRun s).1

/-! ## The remaining event listeners -/

/-- The companyToggle change listener (section 2 of app.js): the checkbox
already has its new value when the listener runs; the listener derives the
section visibility from it and, when hiding, removes the required attribute
and clears the company error slot. -/
def toggleChange (b : Bool) (s : St) : St :=
  if b then
    { s with companyToggle := b, companyHidden := false, companyRequired := true }
  else
    { s with companyToggle := b, companyHidden := true, companyRequired := false
             errCompany := "" }

/-- Write a new value into one of the five validated fields. -/
def setField (f : FieldId) (v : String) (s : St) : St :=
  match f with
  | FieldId.name => { s with nameV := v }
  | FieldId.email => { s with emailV := v }
  | FieldId.password => { s with passwordV := v }
  | FieldId.phone => { s with phoneV := v }
  | FieldId.company => { s with companyV := v }

/-- An input event on one of the five fields (section 5 of app.js): the
value changes, a fresh debounced validation is scheduled (its later firing
is the separate liveValidate step), and buildSummary runs synchronously. -/
def inputEvent (f : FieldId) (v : String) (s : St) : St :=
  buildSummary (setField f v s)

/-- A write into the hidden honeypot field; it has no input listener. -/
def hpWrite (v : String) (s : St) : St := { s with hpV := v }

/-- A debounced live-validation timer firing for one field. -/
def liveValidate (f : FieldId) (s : St) : St :=
  match f with
  | FieldId.name => (validateName s).2
  | FieldId.email => (validateEmail s).2
  | FieldId.password => (validatePassword s).2
  | FieldId.phone => (validatePhone s).2
  | FieldId.company => (validateCompany s).2

/-- The phone blur normalizer value (section 10 of app.js): the regex
replace of `[^0-9+]` keeps digits and every plus sign, then the leading
character decides the country-code rule. -/
def phoneBlurValue (v : String) : String :=
  let digits := String.mk (v.toList.filter (fun c => c.isDigit || c == '+'))
  if strStarts digits '0' then "+358" ++ String.mk (digits.toList.drop 1)
  else if strStarts digits '+' then digits
  else "+358" ++ digits

/-- The phone blur listener: write the normalized value back into the field. -/
def phoneBlur (s : St) : St := { s with phoneV := phoneBlurValue s.phoneV }

/-- The clear button listener (section 8 of app.js): form.reset restores
every control to its markup default (it does not touch attributes such as
required or aria-invalid), the storage key is removed, the error slots are
emptied, the company section is hidden, and buildSummary runs. -/
def clearClick (s : St) : St :=
  buildSummary
    { s with nameV := "", emailV := "", passwordV := "", phoneV := "", companyV := ""
             hpV := "", companyToggle := false
             storage := Blob.absent
             errName := "", errEmail := "", errPassword := "", errPhone := ""
             errCompany := ""
             companyHidden := true }

/-! ## Submission (section 9 of app.js) -/

/-- The outbound payload. -/
structure Payload where
  name : String
  email : String
  phone : String
  company : String
  time : String
deriving DecidableEq, Repr

/-- The payload as built at submit time: the company value is forced to the
empty string when the company checkbox is unchecked. -/
def mkPayload (s : St) (now : String) : Payload :=
  { name := s.nameV, email := s.emailV, phone := s.phoneV
    company := if s.companyToggle then s.companyV else "", time := now }

/-- Modelled from the spec: the DOM order of the validated fields inside the
form (markup not in the repository), matching the spec's fixed order name,
email, password, phone, company. -/
def domOrder : List FieldId :=
  [FieldId.name, FieldId.email, FieldId.password, FieldId.phone, FieldId.company]

/-- The aria-invalid marker of a field. -/
def ariaOf (s : St) : FieldId → Bool
  | FieldId.name => s.ariaName
  | FieldId.email => s.ariaEmail
  | FieldId.password => s.ariaPassword
  | FieldId.phone => s.ariaPhone
  | FieldId.company => s.ariaCompany

/-- The querySelector for the first element with aria-invalid="true", in DOM
order. -/
def firstInvalid (s : St) : Option FieldId :=
  domOrder.find? (fun f => ariaOf s f)

/-- The short-circuiting conjunction
validateName() && validateEmail() && validatePassword() && validatePhone() && validateCompany()
from line 258: a validator after the first failing one is not invoked, so
its state effects do not happen. -/
def validityChain (s : St) : Bool × St :=
  let r1 := validateName s
  if r1.1 = false then (false, r1.2) else
  let r2 := validateEmail r1.2
  if r2.1 = false then (false, r2.2) else
  let r3 := validatePassword r2.2
  if r3.1 = false then (false, r3.2) else
  let r4 := validatePhone r3.2
  if r4.1 = false then (false, r4.2) else
  let r5 := validateCompany r4.2
  (r5.1, r5.2)

/-- What the submit handler decides to do after the validity pass. -/
inductive SubmitAction
  | focusInvalid (f : FieldId)
  | botBlocked
  | send (p : Payload)
deriving DecidableEq, Repr

/-- The submit listener up to the network call: run the validity chain, run
buildSummary, and then either focus the first invalid-marked field and
return, block on a nonempty honeypot, or send the payload. -/
def submitStep (s : St) (now : String) : SubmitAction × St :=
  let s2 := buildSummary (validityChain s).2
  match (validityChain s).1, firstInvalid s2 with
  | false, some f => (SubmitAction.focusInvalid f, s2)
  | false, none =>
      if s2.hpV ≠ "" then (SubmitAction.botBlocked, s2)
      else (SubmitAction.send (mkPayload s2 now), s2)
  | true, _ =>
      if s2.hpV ≠ "" then (SubmitAction.botBlocked, s2)
      else (SubmitAction.send (mkPayload s2 now), s2)

/-- How the awaited network interaction can turn out: the fetch promise
resolves and response.json() yields an id value, or it resolves and
response.json() throws, or the fetch promise rejects with a network error. -/
inductive FetchOutcome
  | ok (idText : String)
  | badBody (err : String)
  | rejected (err : String)
deriving DecidableEq, Repr

/-- The whole submit listener including the try/catch around the network
call: a successful parse alerts the returned id and logs the payload; a
rejection or a body-parse throw is caught once, alerts the generic retry
text, and logs the error.  Exactly one request is sent on the send path and
none otherwise; no path touches storage. -/
def submitEvent (s : St) (now : String) (net : FetchOutcome) : St × Effects :=
  match submitStep s now with
  | (SubmitAction.focusInvalid f, t) => (t, { noEffects with focus := some f })
  | (SubmitAction.botBlocked, t) =>
      (t, { noEffects with alerts := ["Submission blocked due to bot detection."] })
  | (SubmitAction.send _, t) =>
      match net with
      | FetchOutcome.ok idText =>
          (t, { noEffects with
                  alerts := ["Submitted successfully. Demo ID: " ++ idText]
                  logs := ["Submitted Data"], sentCount := 1 })
      | FetchOutcome.badBody e =>
          (t, { noEffects with
                  alerts := ["Network error occurred. Please try again."]
                  errorLogs := ["Submission Error: " ++ e], sentCount := 1 })
      | FetchOutcome.rejected e =>
          (t, { noEffects with
                  alerts := ["Network error occurred. Please try again."]
                  errorLogs := ["Submission Error: " ++ e], sentCount := 1 })

/-! ## Validator invocation traces of the submit handler -/

/-- The validators invoked by the short-circuiting validity chain, in
order: the chain stops calling validators after the first failure. -/
def chainTrace (s : St) : List FieldId :=
  let r1 := validateName s
  if r1.1 = false then [FieldId.name] else
  let r2 := validateEmail r1.2
  if r2.1 = false then [FieldId.name, FieldId.email] else
  let r3 := validatePassword r2.2
  if r3.1 = false then [FieldId.name, FieldId.email, FieldId.password] else
  let r4 := validatePhone r3.2
  if r4.1 = false then [FieldId.name, FieldId.email, FieldId.password, FieldId.phone] else
  [FieldId.name, FieldId.email, FieldId.password, FieldId.phone, FieldId.company]

/-- The validators invoked by buildSummary: the first four always, the
company validator only when its section is visible. -/
def summaryTrace (s : St) : List FieldId :=
  [FieldId.name, FieldId.email, FieldId.password, FieldId.phone] ++
    (if s.companyHidden then [] else [FieldId.company])

/-- Every validator invocation the submit listener performs, in order. -/
def submitTrace (s : St) : List FieldId :=
  chainTrace s ++ summaryTrace (validityChain s).2

/-! ## Reachable states of the page -/

/-- One user-or-timer event processed by the script after page load. -/
inductive Step : St → St → Prop
  | toggle (s : St) (b : Bool) : Step s (toggleChange b s)
  | input (s : St) (f : FieldId) (v : String) : Step s (inputEvent f v s)
  | hp (s : St) (v : String) : Step s (hpWrite v s)
  | fire (s : St) (f : FieldId) : Step s (liveValidate f s)
  | autosave (s : St) : Step s (saveDraft s)
  | blur (s : St) : Step s (phoneBlur s)
  | submit (s : St) (now : String) : Step s (submitStep s now).2
  | clear (s : St) : Step s (clearClick s)

/-- States the page can reach: the script restores the draft once at load
(from whatever blob the store holds) and then processes events. -/
inductive Reachable : St → Prop
  | load (b : Blob) : Reachable (restoreDraft (initSt b))
  | step {s t : St} : Reachable s → Step s t → Reachable t

/-! ## Spec-side definitions for the phone-normalization claim -/

/-- The normalization exactly as the claim words it: strip every character
except digits and a LEADING plus sign (a plus sign anywhere else is
removed), then apply the country-code rule. -/
def claimedPhoneNormal (v : String) : String :=
  let kept := (if strStarts v '+' then "+" else "") ++
    String.mk (v.toList.filter Char.isDigit)
  if strStarts kept '0' then "+358" ++ String.mk (kept.toList.drop 1)
  else if strStarts kept '+' then kept
  else "+358" ++ kept

/-- The normalization as amended: strip every character that is not a
decimal digit and not a plus sign, keeping plus signs wherever they occur,
then apply the country-code rule. -/
def amendedPhoneNormal (v : String) : String :=
  let kept := String.mk (v.toList.filter (fun c => (48 ≤ c.val && c.val ≤ 57) || c = '+'))
  if strStarts kept '0' then "+358" ++ String.mk (kept.toList.drop 1)
  else if strStarts kept '+' then kept
  else "+358" ++ kept

/-! ## Concrete states used by witnesses and counterexamples -/

/-- A state with every field valid: used to drive the submit handler onto
its send path. -/
def validSt : St :=
  { initSt Blob.absent with
      nameV := "Jo", emailV := "jo@example.com", passwordV := "Passw0rdX" }

/-- The invariant of one debounce instance: the stored handle is the single
pending timer, so at most one invocation is ever pending. -/
def debounceInv (st : Option Nat × Sched) : Prop :=
  (st.1 = none → st.2.timers = []) ∧ (∀ i, st.1 = some i → ∃ x, st.2.timers = [(i, x)])

/-! ## Helper characterizations -/

def recheckAll (s : St) : St :=
  { s with
      errName := (nameCheck s.nameV).2, ariaName := !(nameCheck s.nameV).1
      errEmail := (emailCheck s.emailV).2, ariaEmail := !(emailCheck s.emailV).1
      errPassword := (passwordCheck s.passwordV).2
      ariaPassword := !(passwordCheck s.passwordV).1
      errPhone := (phoneCheck s.phoneV).2, ariaPhone := !(phoneCheck s.phoneV).1
      errCompany := if s.companyHidden then s.errCompany
        else (companyCheck s.companyRequired s.companyV).2
      ariaCompany := if s.companyHidden then s.ariaCompany
        else !(companyCheck s.companyRequired s.companyV).1 }

/-! ## Helper lemmas -/

theorem buildSummary_eq (s : St) :
    buildSummary s =
      if (problems s).isEmpty then
        { recheckAll s with summaryHidden := true, summaryHTML := "" }
      else
        { recheckAll s with
            summaryHidden := false
            summaryHTML := "Please fix the following:<br>" ++
              String.intercalate "<br>" (problems s) } := by
  obtain ⟨nv, ev, pv, phv, cv, hv, ct, ch, cr, en, ee, ep, eph, ec, an, ae, ap, aph, ac, sh, sHtml, stg⟩ := s
  simp only [buildSummary, validateName, validateEmail, validatePassword, validatePhone,
    validateCompany, problems, recheckAll]
  cases ch <;> rfl

theorem buildSummary_nameV (s : St) : (buildSummary s).nameV = s.nameV := by
  rw [buildSummary_eq]; split <;> rfl

theorem buildSummary_emailV (s : St) : (buildSummary s).emailV = s.emailV := by
  rw [buildSummary_eq]; split <;> rfl

theorem buildSummary_passwordV (s : St) : (buildSummary s).passwordV = s.passwordV := by
  rw [buildSummary_eq]; split <;> rfl

theorem buildSummary_phoneV (s : St) : (buildSummary s).phoneV = s.phoneV := by
  rw [buildSummary_eq]; split <;> rfl

theorem buildSummary_companyV (s : St) : (buildSummary s).companyV = s.companyV := by
  rw [buildSummary_eq]; split <;> rfl

theorem buildSummary_hpV (s : St) : (buildSummary s).hpV = s.hpV := by
  rw [buildSummary_eq]; split <;> rfl

theorem buildSummary_toggle (s : St) : (buildSummary s).companyToggle = s.companyToggle := by
  rw [buildSummary_eq]; split <;> rfl

theorem buildSummary_hidden (s : St) : (buildSummary s).companyHidden = s.companyHidden := by
  rw [buildSummary_eq]; split <;> rfl

theorem buildSummary_req (s : St) : (buildSummary s).companyRequired = s.companyRequired := by
  rw [buildSummary_eq]; split <;> rfl

theorem buildSummary_storage (s : St) : (buildSummary s).storage = s.storage := by
  rw [buildSummary_eq]; split <;> rfl

theorem buildSummary_errName (s : St) :
    (buildSummary s).errName = (nameCheck s.nameV).2 := by
  rw [buildSummary_eq]; split <;> rfl

theorem buildSummary_errEmail (s : St) :
    (buildSummary s).errEmail = (emailCheck s.emailV).2 := by
  rw [buildSummary_eq]; split <;> rfl

theorem buildSummary_errPassword (s : St) :
    (buildSummary s).errPassword = (passwordCheck s.passwordV).2 := by
  rw [buildSummary_eq]; split <;> rfl

theorem buildSummary_errPhone (s : St) :
    (buildSummary s).errPhone = (phoneCheck s.phoneV).2 := by
  rw [buildSummary_eq]; split <;> rfl

theorem buildSummary_errCompany (s : St) :
    (buildSummary s).errCompany = if s.companyHidden then s.errCompany
      else (companyCheck s.companyRequired s.companyV).2 := by
  rw [buildSummary_eq]; split <;> rfl

theorem buildSummary_ariaName (s : St) :
    (buildSummary s).ariaName = !(nameCheck s.nameV).1 := by
  rw [buildSummary_eq]; split <;> rfl

theorem buildSummary_ariaEmail (s : St) :
    (buildSummary s).ariaEmail = !(emailCheck s.emailV).1 := by
  rw [buildSummary_eq]; split <;> rfl

theorem buildSummary_ariaPassword (s : St) :
    (buildSummary s).ariaPassword = !(passwordCheck s.passwordV).1 := by
  rw [buildSummary_eq]; split <;> rfl

theorem buildSummary_ariaPhone (s : St) :
    (buildSummary s).ariaPhone = !(phoneCheck s.phoneV).1 := by
  rw [buildSummary_eq]; split <;> rfl

theorem buildSummary_ariaCompany (s : St) :
    (buildSummary s).ariaCompany = if s.companyHidden then s.ariaCompany
      else !(companyCheck s.companyRequired s.companyV).1 := by
  rw [buildSummary_eq]; split <;> rfl

theorem buildSummary_summaryHidden (s : St) :
    (buildSummary s).summaryHidden = (problems s).isEmpty := by
  rw [buildSummary_eq]; split <;> simp_all

theorem buildSummary_summaryHTML (s : St) :
    (buildSummary s).summaryHTML = if (problems s).isEmpty then ""
      else "Please fix the following:<br>" ++ String.intercalate "<br>" (problems s) := by
  rw [buildSummary_eq]; split <;> simp_all

theorem validityChain_fst (s : St) :
    (validityChain s).1 = ((nameCheck s.nameV).1 && (emailCheck s.emailV).1 &&
      (passwordCheck s.passwordV).1 && (phoneCheck s.phoneV).1 &&
      (s.companyHidden || (companyCheck s.companyRequired s.companyV).1)) := by
  obtain ⟨nv, ev, pv, phv, cv, hv, ct, ch, cr, en, ee, ep, eph, ec, an, ae, ap, aph, ac, sh, sHtml, stg⟩ := s
  simp only [validityChain, validateName, validateEmail, validatePassword, validatePhone,
    validateCompany]
  split_ifs <;> simp_all

theorem chain_nameV (s : St) : (validityChain s).2.nameV = s.nameV := by
  obtain ⟨nv, ev, pv, phv, cv, hv, ct, ch, cr, en, ee, ep, eph, ec, an, ae, ap, aph, ac, sh, sHtml, stg⟩ := s
  simp only [validityChain, validateName, validateEmail, validatePassword, validatePhone,
    validateCompany]
  split_ifs <;> rfl

theorem chain_emailV (s : St) : (validityChain s).2.emailV = s.emailV := by
  obtain ⟨nv, ev, pv, phv, cv, hv, ct, ch, cr, en, ee, ep, eph, ec, an, ae, ap, aph, ac, sh, sHtml, stg⟩ := s
  simp only [validityChain, validateName, validateEmail, validatePassword, validatePhone,
    validateCompany]
  split_ifs <;> rfl

theorem chain_passwordV (s : St) : (validityChain s).2.passwordV = s.passwordV := by
  obtain ⟨nv, ev, pv, phv, cv, hv, ct, ch, cr, en, ee, ep, eph, ec, an, ae, ap, aph, ac, sh, sHtml, stg⟩ := s
  simp only [validityChain, validateName, validateEmail, validatePassword, validatePhone,
    validateCompany]
  split_ifs <;> rfl

theorem chain_phoneV (s : St) : (validityChain s).2.phoneV = s.phoneV := by
  obtain ⟨nv, ev, pv, phv, cv, hv, ct, ch, cr, en, ee, ep, eph, ec, an, ae, ap, aph, ac, sh, sHtml, stg⟩ := s
  simp only [validityChain, validateName, validateEmail, validatePassword, validatePhone,
    validateCompany]
  split_ifs <;> rfl

theorem chain_companyV (s : St) : (validityChain s).2.companyV = s.companyV := by
  obtain ⟨nv, ev, pv, phv, cv, hv, ct, ch, cr, en, ee, ep, eph, ec, an, ae, ap, aph, ac, sh, sHtml, stg⟩ := s
  simp only [validityChain, validateName, validateEmail, validatePassword, validatePhone,
    validateCompany]
  split_ifs <;> rfl

theorem chain_hpV (s : St) : (validityChain s).2.hpV = s.hpV := by
  obtain ⟨nv, ev, pv, phv, cv, hv, ct, ch, cr, en, ee, ep, eph, ec, an, ae, ap, aph, ac, sh, sHtml, stg⟩ := s
  simp only [validityChain, validateName, validateEmail, validatePassword, validatePhone,
    validateCompany]
  split_ifs <;> rfl

theorem chain_toggle (s : St) : (validityChain s).2.companyToggle = s.companyToggle := by
  obtain ⟨nv, ev, pv, phv, cv, hv, ct, ch, cr, en, ee, ep, eph, ec, an, ae, ap, aph, ac, sh, sHtml, stg⟩ := s
  simp only [validityChain, validateName, validateEmail, validatePassword, validatePhone,
    validateCompany]
  split_ifs <;> rfl

theorem chain_hidden (s : St) : (validityChain s).2.companyHidden = s.companyHidden := by
  obtain ⟨nv, ev, pv, phv, cv, hv, ct, ch, cr, en, ee, ep, eph, ec, an, ae, ap, aph, ac, sh, sHtml, stg⟩ := s
  simp only [validityChain, validateName, validateEmail, validatePassword, validatePhone,
    validateCompany]
  split_ifs <;> rfl

theorem chain_req (s : St) : (validityChain s).2.companyRequired = s.companyRequired := by
  obtain ⟨nv, ev, pv, phv, cv, hv, ct, ch, cr, en, ee, ep, eph, ec, an, ae, ap, aph, ac, sh, sHtml, stg⟩ := s
  simp only [validityChain, validateName, validateEmail, validatePassword, validatePhone,
    validateCompany]
  split_ifs <;> rfl

theorem chain_storage (s : St) : (validityChain s).2.storage = s.storage := by
  obtain ⟨nv, ev, pv, phv, cv, hv, ct, ch, cr, en, ee, ep, eph, ec, an, ae, ap, aph, ac, sh, sHtml, stg⟩ := s
  simp only [validityChain, validateName, validateEmail, validatePassword, validatePhone,
    validateCompany]
  split_ifs <;> rfl

theorem chain_errCompany (s : St) (h : s.companyHidden = true) :
    (validityChain s).2.errCompany = s.errCompany := by
  obtain ⟨nv, ev, pv, phv, cv, hv, ct, ch, cr, en, ee, ep, eph, ec, an, ae, ap, aph, ac, sh, sHtml, stg⟩ := s
  cases h
  simp only [validityChain, validateName, validateEmail, validatePassword, validatePhone,
    validateCompany]
  split_ifs <;> rfl

theorem submitStep_snd (s : St) (now : String) :
    (submitStep s now).2 = buildSummary (validityChain s).2 := by
  unfold submitStep
  rcases h1 : (validityChain s).1 <;>
    rcases h2 : firstInvalid (buildSummary (validityChain s).2) with _ | f <;>
      simp [h1, h2] <;> split <;> rfl

theorem firstInvalid_isSome_of (s2 : St) (f : FieldId) (hf : ariaOf s2 f = true) :
    (firstInvalid s2).isSome := by
  have hmem : f ∈ domOrder := by cases f <;> simp [domOrder]
  rw [firstInvalid, List.find?_isSome]
  exact ⟨f, hmem, hf⟩

theorem invalid_has_marker (s : St) (h : (validityChain s).1 = false) :
    (firstInvalid (buildSummary (validityChain s).2)).isSome := by
  rw [validityChain_fst] at h
  cases hA : (nameCheck s.nameV).1 with
  | false =>
      exact firstInvalid_isSome_of _ FieldId.name
        (by simp [ariaOf, buildSummary_ariaName, chain_nameV, hA])
  | true =>
  cases hB : (emailCheck s.emailV).1 with
  | false =>
      exact firstInvalid_isSome_of _ FieldId.email
        (by simp [ariaOf, buildSummary_ariaEmail, chain_emailV, hB])
  | true =>
  cases hC : (passwordCheck s.passwordV).1 with
  | false =>
      exact firstInvalid_isSome_of _ FieldId.password
        (by simp [ariaOf, buildSummary_ariaPassword, chain_passwordV, hC])
  | true =>
  cases hD : (phoneCheck s.phoneV).1 with
  | false =>
      exact firstInvalid_isSome_of _ FieldId.phone
        (by simp [ariaOf, buildSummary_ariaPhone, chain_phoneV, hD])
  | true =>
  cases hH : s.companyHidden with
  | true => rw [hA, hB, hC, hD, hH] at h; simp at h
  | false =>
  cases hE : (companyCheck s.companyRequired s.companyV).1 with
  | false =>
      exact firstInvalid_isSome_of _ FieldId.company
        (by simp [ariaOf, buildSummary_ariaCompany, chain_hidden, chain_req, chain_companyV,
              hH, hE])
  | true => rw [hA, hB, hC, hD, hH, hE] at h; simp at h

/-! ## Claim theorems -/

theorem debounceTrigger_inv (w t : Nat) (st : Option Nat × Sched) (h : debounceInv st) :
    debounceInv (debounceTrigger w t st) := by
  obtain ⟨h0, h1⟩ := h
  rcases hp : st.1 with _ | i
  · constructor
    · intro hcon; simp [debounceTrigger] at hcon
    · intro i hi
      refine ⟨t + w, ?_⟩
      simp only [debounceTrigger] at hi ⊢
      simp only [Option.some.injEq] at hi
      subst hi
      simp [clearStored, hp, h0 hp]
  · constructor
    · intro hcon; simp [debounceTrigger] at hcon
    · intro j hj
      obtain ⟨x, hx⟩ := h1 i hp
      refine ⟨t + w, ?_⟩
      simp only [debounceTrigger] at hj ⊢
      simp only [Option.some.injEq] at hj
      subst hj
      simp [clearStored, hp, hx]

theorem sharedDebounce_inv (w : Nat) (times : List Nat) :
    debounceInv (times.foldl (fun st t => debounceTrigger w t st)
      (none, { timers := [], nextId := 0 })) := by
  have base : debounceInv ((none : Option Nat), ({ timers := [], nextId := 0 } : Sched)) := by
    constructor
    · intro; rfl
    · intro i hi; cases hi
  generalize hst : ((none : Option Nat), ({ timers := [], nextId := 0 } : Sched)) = st0
  rw [hst] at base
  clear hst
  induction times generalizing st0 with
  | nil => exact base
  | cons t ts ih => exact ih _ (debounceTrigger_inv w t st0 base)

/-- Claim C3 (code_bug): the source creates a fresh debounce wrapper inside each
input listener call, so a trigger 50 ms after a previous one does NOT cancel the
pending validation: both timers stay scheduled and the validation action fires
twice within one quiescence window.  A single shared debounce instance — the
contract the spec states, and how the autosave usage instantiates debounce —
keeps at most one pending invocation for any trigger sequence. -/
theorem claim3_debounce_bug :
    (liveInputEvents [0, 50]).timers = [(0, 150), (1, 200)] ∧
    (sharedDebounce 150 [0, 50]).2.timers = [(1, 200)] ∧
    ∀ times : List Nat, (sharedDebounce 150 times).2.timers.length ≤ 1 := by
  refine ⟨by decide, by decide, ?_⟩
  intro times
  have h := sharedDebounce_inv 150 times
  rw [sharedDebounce]
  rcases hp : (times.foldl (fun st t => debounceTrigger 150 t st)
      (none, { timers := [], nextId := 0 })).1 with _ | i
  · rw [h.1 hp]; simp
  · obtain ⟨x, hx⟩ := h.2 i hp
    rw [hx]; simp

/-- Claim C4 (confirmed): for every form state, saving the draft and restoring
it on a fresh page reproduces all six persisted components exactly, and the
company-section visibility is re-derived from the restored toggle. -/
theorem claim4_draft_round_trip (s : St) :
    (restoreDraft (initSt (saveDraft s).storage)).nameV = s.nameV ∧
    (restoreDraft (initSt (saveDraft s).storage)).emailV = s.emailV ∧
    (restoreDraft (initSt (saveDraft s).storage)).phoneV = s.phoneV ∧
    (restoreDraft (initSt (saveDraft s).storage)).passwordV = s.passwordV ∧
    (restoreDraft (initSt (saveDraft s).storage)).companyV = s.companyV ∧
    (restoreDraft (initSt (saveDraft s).storage)).companyToggle = s.companyToggle ∧
    (restoreDraft (initSt (saveDraft s).storage)).companyHidden = !s.companyToggle := by
  simp [restoreDraft, restoreDraftRun, restoreDraftE, saveDraft, initSt, jsStr, jsBool]

/-- Claim C5 (confirmed): for every malformed stored blob, the deserialization
step raises an error, restoreDraft catches it at the restore boundary, every
field keeps its default empty/false value, the failure is reported only on the
console.error diagnostic channel, and no user-facing alert is produced. -/
theorem claim5_malformed_restore (raw : String) :
    (∃ e, restoreDraftE (initSt (Blob.malformed raw)) = Except.error e) ∧
    (restoreDraftRun (initSt (Blob.malformed raw))).1.nameV = "" ∧
    (restoreDraftRun (initSt (Blob.malformed raw))).1.emailV = "" ∧
    (restoreDraftRun (initSt (Blob.malformed raw))).1.phoneV = "" ∧
    (restoreDraftRun (initSt (Blob.malformed raw))).1.passwordV = "" ∧
    (restoreDraftRun (initSt (Blob.malformed raw))).1.companyV = "" ∧
    (restoreDraftRun (initSt (Blob.malformed raw))).1.companyToggle = false ∧
    (restoreDraftRun (initSt (Blob.malformed raw))).2.errorLogs =
      ["Restore Error: " ++ ("SyntaxError: unexpected token in JSON: " ++ raw)] ∧
    (restoreDraftRun (initSt (Blob.malformed raw))).2.alerts = [] := by
  refine ⟨⟨"SyntaxError: unexpected token in JSON: " ++ raw, rfl⟩, ?_⟩
  simp [restoreDraftRun, restoreDraftE, initSt, noEffects]

/-- Claim C7 (confirmed): calling buildSummary twice with no intervening state
change renders byte-identical summary output both times and leaves the summary
visibility identical between the two calls. -/
theorem claim7_summary_idempotent (s : St) :
    (buildSummary (buildSummary s)).summaryHTML = (buildSummary s).summaryHTML ∧
    (buildSummary (buildSummary s)).summaryHidden = (buildSummary s).summaryHidden := by
  have hprob : problems (buildSummary s) = problems s := by
    unfold problems
    rw [buildSummary_nameV, buildSummary_emailV, buildSummary_passwordV, buildSummary_phoneV,
      buildSummary_companyV, buildSummary_hidden, buildSummary_req]
  exact ⟨by rw [buildSummary_summaryHTML, buildSummary_summaryHTML, hprob],
         by rw [buildSummary_summaryHidden, buildSummary_summaryHidden, hprob]⟩

theorem submitEvent_fst (s : St) (now : String) (net : FetchOutcome) :
    (submitEvent s now net).1 = (submitStep s now).2 := by
  unfold submitEvent
  rcases h : submitStep s now with ⟨a, t⟩
  cases a <;> cases net <;> simp [h]

/-- Claim C10 (confirmed): the submit handler leaves the stored draft untouched
on every path — validation failure, bot-trap block, network failure, and
success — and the explicit clear action is what deletes the storage key. -/
theorem claim10_storage_frame (s : St) (now : String) (net : FetchOutcome) :
    (submitEvent s now net).1.storage = s.storage ∧ (clearClick s).storage = Blob.absent := by
  constructor
  · rw [submitEvent_fst, submitStep_snd, buildSummary_storage, chain_storage]
  · unfold clearClick; rw [buildSummary_storage]

/-- Claim C6 counterexample: on input "1+2" the code keeps the interior plus
sign (regex [^0-9+] keeps every plus) and yields "+3581+2", while the claim as
stated (strip everything except digits and a LEADING plus) would yield
"+35812"; the two disagree. -/
theorem claim6_counterexample :
    phoneBlurValue "1+2" = "+3581+2" ∧ claimedPhoneNormal "1+2" = "+35812" ∧
    phoneBlurValue "1+2" ≠ claimedPhoneNormal "1+2" := by
  refine ⟨by decide, by decide, by decide⟩

/-- Claim C6 amended (corrected): on blur the phone normalizer strips every
character except digits and plus signs (wherever they occur), then: a leading
0 is replaced by +358; a value already starting with + is kept; otherwise +358
is prepended; the result is written back into the phone field. -/
theorem claim6_amended (s : St) :
    (phoneBlur s).phoneV = amendedPhoneNormal s.phoneV := by
  show phoneBlurValue s.phoneV = amendedPhoneNormal s.phoneV
  have hfun : (fun c : Char => c.isDigit || c == '+') =
      (fun c : Char => ((48 ≤ c.val && c.val ≤ 57) || c = '+' : Bool)) := by
    funext c
    by_cases hc : c = '+' <;> simp [Char.isDigit, ge_iff_le, hc]
  unfold phoneBlurValue amendedPhoneNormal
  rw [hfun]

theorem setField_hidden (f : FieldId) (v : String) (s : St) :
    (setField f v s).companyHidden = s.companyHidden := by
  cases f <;> rfl

theorem setField_errCompany (f : FieldId) (v : String) (s : St) :
    (setField f v s).errCompany = s.errCompany := by
  cases f <;> rfl

theorem liveValidate_hidden (f : FieldId) (s : St) :
    (liveValidate f s).companyHidden = s.companyHidden := by
  cases f
  case company =>
    simp only [liveValidate, validateCompany]
    split
    · rfl
    · rfl
  all_goals rfl

theorem liveValidate_errCompany (f : FieldId) (s : St) (h : s.companyHidden = true) :
    (liveValidate f s).errCompany = s.errCompany := by
  cases f <;> simp [liveValidate, validateName, validateEmail, validatePassword,
    validatePhone, validateCompany, h]

theorem clearClick_hidden (s : St) : (clearClick s).companyHidden = true := by
  unfold clearClick; rw [buildSummary_hidden]

theorem clearClick_errCompany (s : St) : (clearClick s).errCompany = "" := by
  unfold clearClick; rw [buildSummary_errCompany]; simp

theorem inputEvent_hidden (f : FieldId) (v : String) (s : St) :
    (inputEvent f v s).companyHidden = s.companyHidden := by
  unfold inputEvent; rw [buildSummary_hidden, setField_hidden]

theorem inputEvent_errCompany (f : FieldId) (v : String) (s : St)
    (h : s.companyHidden = true) :
    (inputEvent f v s).errCompany = s.errCompany := by
  unfold inputEvent
  rw [buildSummary_errCompany, setField_hidden, setField_errCompany, h]
  simp

theorem submitStep_hidden (s : St) (now : String) :
    (submitStep s now).2.companyHidden = s.companyHidden := by
  rw [submitStep_snd, buildSummary_hidden, chain_hidden]

theorem submitStep_errCompany (s : St) (now : String) (h : s.companyHidden = true) :
    (submitStep s now).2.errCompany = s.errCompany := by
  rw [submitStep_snd, buildSummary_errCompany, chain_hidden, chain_errCompany s h, h]
  simp

/-- Claim C2 amended (corrected): in every reachable state, a hidden company
section implies an empty company error text; and the toggle-off listener (the
path the spec describes) does remove the required attribute and clear the
error.  The original hidden-implies-not-required part fails on the clear
path, as the counterexample shows. -/
theorem claim2_amended :
    (∀ s, Reachable s → s.companyHidden = true → s.errCompany = "") ∧
    (∀ s, (toggleChange false s).companyRequired = false ∧
      (toggleChange false s).errCompany = "") := by
  constructor
  · intro s hs
    induction hs with
    | load b => cases b <;> intro h <;>
        simp [restoreDraft, restoreDraftRun, restoreDraftE, initSt]
    | @step s t hr st ih =>
        cases st with
        | toggle b =>
            cases b
            · intro h; simp [toggleChange]
            · intro h; simp [toggleChange] at h
        | input f v =>
            intro h
            rw [inputEvent_hidden] at h
            rw [inputEvent_errCompany f v s h]
            exact ih h
        | hp v =>
            intro h
            rw [show (hpWrite v s).companyHidden = s.companyHidden from rfl] at h
            rw [show (hpWrite v s).errCompany = s.errCompany from rfl]
            exact ih h
        | fire f =>
            intro h
            rw [liveValidate_hidden] at h
            rw [liveValidate_errCompany f s h]
            exact ih h
        | autosave =>
            intro h
            rw [show (saveDraft s).companyHidden = s.companyHidden from rfl] at h
            rw [show (saveDraft s).errCompany = s.errCompany from rfl]
            exact ih h
        | blur =>
            intro h
            rw [show (phoneBlur s).companyHidden = s.companyHidden from rfl] at h
            rw [show (phoneBlur s).errCompany = s.errCompany from rfl]
            exact ih h
        | submit now =>
            intro h
            rw [submitStep_hidden] at h
            rw [submitStep_errCompany s now h]
            exact ih h
        | clear =>
            intro h
            exact clearClick_errCompany s
  · intro s
    constructor <;> simp [toggleChange]

/-- Claim C2 counterexample: the state reached by switching the company toggle
on and then pressing Clear is reachable, has the company section hidden, and
STILL has the required attribute set — the clear listener hides the section
without removing the required attribute, refuting the claimed invariant. -/
theorem claim2_counterexample :
    Reachable (clearClick (toggleChange true (restoreDraft (initSt Blob.absent)))) ∧
    (clearClick (toggleChange true (restoreDraft (initSt Blob.absent)))).companyHidden
      = true ∧
    (clearClick (toggleChange true (restoreDraft (initSt Blob.absent)))).companyRequired
      = true := by
  refine ⟨?_, by decide, by decide⟩
  exact Reachable.step (Reachable.step (Reachable.load Blob.absent)
    (Step.toggle _ true)) (Step.clear _)

/-- Witness for the amended claim C2, at the freshly loaded page state. -/
theorem claim2_witness : (restoreDraft (initSt Blob.absent)).errCompany = "" :=
  claim2_amended.1 (restoreDraft (initSt Blob.absent)) (Reachable.load Blob.absent)
    (by decide)

/-- Claim C1 counterexample: at the initial state (empty name), the submit-time
validity conjunction short-circuits after validateName, and the company
validator is never invoked during the whole submit pass — refuting the claim
that all five validators run unconditionally. -/
theorem claim1_counterexample :
    chainTrace (initSt Blob.absent) = [FieldId.name] ∧
    FieldId.company ∉ submitTrace (initSt Blob.absent) := by
  refine ⟨by decide, by decide⟩

/-- Claim C1 amended (corrected): the submit-time validity conjunction
short-circuits, but the handler then calls buildSummary, which re-invokes the
name, email, password and phone validators unconditionally and the company
validator whenever its section is visible; hence after every submit those four
fields (and the company field when visible) have error text and invalid
markers that reflect their current values. -/
theorem claim1_amended (s : St) (now : String) :
    FieldId.name ∈ submitTrace s ∧ FieldId.email ∈ submitTrace s ∧
    FieldId.password ∈ submitTrace s ∧ FieldId.phone ∈ submitTrace s ∧
    (s.companyHidden = false → FieldId.company ∈ submitTrace s) ∧
    (submitStep s now).2.errName = (nameCheck s.nameV).2 ∧
    (submitStep s now).2.ariaName = !(nameCheck s.nameV).1 ∧
    (submitStep s now).2.errEmail = (emailCheck s.emailV).2 ∧
    (submitStep s now).2.ariaEmail = !(emailCheck s.emailV).1 ∧
    (submitStep s now).2.errPassword = (passwordCheck s.passwordV).2 ∧
    (submitStep s now).2.ariaPassword = !(passwordCheck s.passwordV).1 ∧
    (submitStep s now).2.errPhone = (phoneCheck s.phoneV).2 ∧
    (submitStep s now).2.ariaPhone = !(phoneCheck s.phoneV).1 ∧
    (s.companyHidden = false →
      (submitStep s now).2.errCompany = (companyCheck s.companyRequired s.companyV).2 ∧
      (submitStep s now).2.ariaCompany = !(companyCheck s.companyRequired s.companyV).1) := by
  refine ⟨?_, ?_, ?_, ?_, ?_, ?_, ?_, ?_, ?_, ?_, ?_, ?_, ?_, ?_⟩
  · simp [submitTrace, summaryTrace]
  · simp [submitTrace, summaryTrace]
  · simp [submitTrace, summaryTrace]
  · simp [submitTrace, summaryTrace]
  · intro h; simp [submitTrace, summaryTrace, chain_hidden, h]
  · rw [submitStep_snd, buildSummary_errName, chain_nameV]
  · rw [submitStep_snd, buildSummary_ariaName, chain_nameV]
  · rw [submitStep_snd, buildSummary_errEmail, chain_emailV]
  · rw [submitStep_snd, buildSummary_ariaEmail, chain_emailV]
  · rw [submitStep_snd, buildSummary_errPassword, chain_passwordV]
  · rw [submitStep_snd, buildSummary_ariaPassword, chain_passwordV]
  · rw [submitStep_snd, buildSummary_errPhone, chain_phoneV]
  · rw [submitStep_snd, buildSummary_ariaPhone, chain_phoneV]
  · intro h
    constructor
    · rw [submitStep_snd, buildSummary_errCompany, chain_hidden, chain_req, chain_companyV, h]
      simp
    · rw [submitStep_snd, buildSummary_ariaCompany, chain_hidden, chain_req, chain_companyV, h]
      simp

/-- Witness for the amended claim C1 at a state with the company section
visible. -/
theorem claim1_amended_witness :
    FieldId.company ∈ submitTrace (toggleChange true (initSt Blob.absent)) ∧
    (submitStep (toggleChange true (initSt Blob.absent)) "t").2.errCompany =
      (companyCheck (toggleChange true (initSt Blob.absent)).companyRequired
        (toggleChange true (initSt Blob.absent)).companyV).2 := by
  obtain ⟨-, -, -, -, hE, -, -, -, -, -, -, -, -, hG⟩ :=
    claim1_amended (toggleChange true (initSt Blob.absent)) "t"
  exact ⟨hE rfl, (hG rfl).1⟩

/-- Claim C8 (confirmed): whenever the submit-time validity conjunction is
false, some field carries the invalid marker, focus moves to the first such
field in DOM order, and the handler halts with no network request and no
alert. -/
theorem claim8_invalid_submit (s : St) (now : String) (net : FetchOutcome)
    (h : (validityChain s).1 = false) :
    ∃ f, firstInvalid (buildSummary (validityChain s).2) = some f ∧
      (submitEvent s now net).2.focus = some f ∧
      (submitEvent s now net).2.sentCount = 0 ∧
      (submitEvent s now net).2.alerts = [] := by
  have hsome := invalid_has_marker s h
  rcases hf : firstInvalid (buildSummary (validityChain s).2) with _ | f
  · rw [hf] at hsome; simp at hsome
  · have hstep : submitStep s now =
        (SubmitAction.focusInvalid f, buildSummary (validityChain s).2) := by
      simp only [submitStep, h, hf]
    refine ⟨f, rfl, ?_, ?_, ?_⟩ <;> simp [submitEvent, hstep, noEffects]

/-- Witness for claim C8 at the initial (empty, hence invalid) state. -/
theorem claim8_witness :
    ∃ f, firstInvalid (buildSummary (validityChain (initSt Blob.absent)).2) = some f ∧
      (submitEvent (initSt Blob.absent) "t" (FetchOutcome.rejected "err")).2.focus
        = some f ∧
      (submitEvent (initSt Blob.absent) "t" (FetchOutcome.rejected "err")).2.sentCount
        = 0 ∧
      (submitEvent (initSt Blob.absent) "t" (FetchOutcome.rejected "err")).2.alerts
        = [] :=
  claim8_invalid_submit (initSt Blob.absent) "t" (FetchOutcome.rejected "err") (by decide)

/-- Claim C9 (confirmed): when the submission request fails — the fetch promise
rejects or the response body fails to parse — the user sees only the generic
retry alert, the underlying error goes to console.error, exactly one request
was issued (no automatic retry), and the stored draft is unchanged. -/
theorem claim9_network_failure (s : St) (now e : String) (p : Payload)
    (hsend : (submitStep s now).1 = SubmitAction.send p) (net : FetchOutcome)
    (hfail : net = FetchOutcome.rejected e ∨ net = FetchOutcome.badBody e) :
    (submitEvent s now net).2.alerts = ["Network error occurred. Please try again."] ∧
    (submitEvent s now net).2.errorLogs = ["Submission Error: " ++ e] ∧
    (submitEvent s now net).2.sentCount = 1 ∧
    (submitEvent s now net).1.storage = s.storage := by
  have hsnd := submitStep_snd s now
  have hpair : submitStep s now =
      (SubmitAction.send p, buildSummary (validityChain s).2) := by
    rcases hq : submitStep s now with ⟨a, t⟩
    rw [hq] at hsend hsnd
    simp only [Prod.fst, Prod.snd] at hsend hsnd
    rw [hsend, hsnd]
  have hstore : (buildSummary (validityChain s).2).storage = s.storage := by
    rw [buildSummary_storage, chain_storage]
  rcases hfail with rfl | rfl <;>
    refine ⟨?_, ?_, ?_, ?_⟩ <;> simp [submitEvent, hpair, noEffects, hstore]

/-- Witness for claim C9: an all-valid state whose submission is rejected by
the network. -/
theorem claim9_witness :
    (submitEvent validSt "t" (FetchOutcome.rejected "boom")).2.alerts =
      ["Network error occurred. Please try again."] ∧
    (submitEvent validSt "t" (FetchOutcome.rejected "boom")).2.errorLogs =
      ["Submission Error: " ++ "boom"] ∧
    (submitEvent validSt "t" (FetchOutcome.rejected "boom")).2.sentCount = 1 ∧
    (submitEvent validSt "t" (FetchOutcome.rejected "boom")).1.storage =
      validSt.storage :=
  claim9_network_failure validSt "t" "boom"
    { name := "Jo", email := "jo@example.com", phone := "", company := "", time := "t" }
    (by decide) (FetchOutcome.rejected "boom") (Or.inl rfl)

end WS5
